import Mathlib

/-!
Verification of the SALLY-E Telegram Mini App front-end modules
(rewarded-ad consent-and-reward flow, VPN gating, device fingerprint
cache, cooldown rendering, DB loader reference counting).

Each JavaScript function relevant to the checked properties is shallowly
embedded as a Lean definition: DOM state and module-level mutable state
become explicit records, asynchronous outcomes (fetch results, SDK
results) become explicit environment parameters, and interleavings of
event-loop callbacks become traces of events folded over a step function.
-/

set_option autoImplicit false

namespace Mibot

/-! ## JavaScript string helpers

`jsStrTruthy` models JavaScript truthiness of a nullable string
(`null`/`undefined` and the empty string are falsy).  `hasSub hay sub`
models `hay.includes(sub)` (contiguous substring test). -/

def jsStrTruthy : Option String → Bool
  | none => false
  | some s => !(s = "")

/-- `hasSubList hay sub = true` iff `sub` occurs contiguously in `hay`. -/
def hasSubList : List Char → List Char → Bool
  | [], sub => sub.isEmpty
  | h :: t, sub => sub.isPrefixOf (h :: t) || hasSubList t sub

/-- Model of JavaScript `hay.includes(sub)`. -/
def hasSub (hay sub : String) : Bool :=
  hasSubList hay.data sub.data

/-! ## C4: user id resolution

Embedding of `getUserId` (adsgram_boost module, and the identical
function in `onclicka_pts.js`):

```js
const urlParams = new URLSearchParams(window.location.search);
let userId = urlParams.get('user_id');
if (!userId && window.Telegram?.WebApp?.initDataUnsafe?.user?.id) {
    userId = window.Telegram.WebApp.initDataUnsafe.user.id;
}
return userId;
```

`urlUserId` is the URL query parameter (`none` when absent), `tgUserId`
the Telegram WebApp context user id. -/

def getUserId (urlUserId tgUserId : Option String) : Option String :=
  if !jsStrTruthy urlUserId && jsStrTruthy tgUserId then tgUserId else urlUserId

/-! ## C7: cooldown rendering

Embedding of `formatCooldown` from `shrinkearn.js`:

```js
if (seconds < 60) return `(seconds)s`;
const mins = Math.floor(seconds / 60);
const secs = seconds % 60;
return `(mins):(secs padStart(2,'0'))`;
```
-/

/-- Model of JavaScript `s.padStart(2, '0')`. -/
def padStart2 (s : String) : String :=
  String.mk (List.replicate (2 - s.length) '0') ++ s

def formatCooldown (seconds : Nat) : String :=
  if seconds < 60 then
    Nat.repr seconds ++ "s"
  else
    Nat.repr (seconds / 60) ++ ":" ++ padStart2 (Nat.repr (seconds % 60))

/-- The spec side of C7: "two-digit seconds", written independently of the
source `padStart` mechanism. -/
def twoDigitSpec (n : Nat) : String :=
  if n < 10 then "0" ++ Nat.repr n else Nat.repr n

/-! The claim's other cited rendering site is the boost-button cooldown in
`updateBoostUI` (adsgram_boost module):

```js
if (status.cooldown_remaining_seconds > 0) {
    const mins = Math.floor(status.cooldown_remaining_seconds / 60);
    const secs = status.cooldown_remaining_seconds % 60;
    boostButton.innerHTML = `... <span>Espera (mins):(secs padStart(2,'0'))</span>`;
}
```

There is no below-60 branch here: every positive cooldown is rendered in
minutes-colon-seconds form. -/

/-- Text content of the boost-button cooldown span set by `updateBoostUI`
when `cooldown_remaining_seconds > 0`. -/
def boostCooldownLabel (seconds : Nat) : String :=
  "Espera " ++ Nat.repr (seconds / 60) ++ ":" ++ padStart2 (Nat.repr (seconds % 60))

end Mibot

/-- C7 counterexample: at the boost-button cooldown display of
`updateBoostUI`, a cooldown of 5 seconds — below 60 — is rendered as
`Espera 0:05`, not as the number followed by `s` (`5s`) that the claim
requires for every rendering of the cooldown. -/
theorem updateBoostUI_cooldown_not_seconds_suffix :
    Mibot.boostCooldownLabel 5 = "Espera 0:05" ∧
    Mibot.boostCooldownLabel 5 ≠ "5s" := by
  constructor
  · decide
  · decide

/-- C7 (amended): the ShrinkEarn cooldown formatter `formatCooldown`
renders seconds below 60 as the number followed by `s` and seconds of 60
or more as minutes, a colon, and two-digit seconds; the boost-button
cooldown display of `updateBoostUI` instead renders every positive
cooldown — below 60 included — as `Espera ` followed by minutes, a
colon, and two-digit seconds. -/
theorem cooldown_rendering_amended (n : Nat) :
    (n < 60 → Mibot.formatCooldown n = Nat.repr n ++ "s") ∧
    (60 ≤ n →
      Mibot.formatCooldown n =
        Nat.repr (n / 60) ++ ":" ++ Mibot.twoDigitSpec (n % 60)) ∧
    (0 < n →
      Mibot.boostCooldownLabel n =
        "Espera " ++ Nat.repr (n / 60) ++ ":" ++
          Mibot.twoDigitSpec (n % 60)) := by
  have hmod : n % 60 < 60 := Nat.mod_lt _ (by norm_num)
  have hpad : ∀ m : Nat, m < 60 →
      Mibot.padStart2 (Nat.repr m) = Mibot.twoDigitSpec m := by decide
  refine ⟨?_, ?_, ?_⟩
  · intro h
    simp [Mibot.formatCooldown, h]
  · intro h
    have hlt : ¬ n < 60 := by omega
    simp [Mibot.formatCooldown, hlt, hpad (n % 60) hmod]
  · intro _
    simp [Mibot.boostCooldownLabel, hpad (n % 60) hmod]

/-- Witness for the amended C7 at the claim's own example inputs: the
ShrinkEarn formatter renders 65 as `1:05` and 5 as `5s`, while the boost
cooldown display renders 5 as `Espera 0:05`. -/
theorem cooldown_rendering_amended_witness :
    Mibot.formatCooldown 65 = "1:05" ∧ Mibot.formatCooldown 5 = "5s" ∧
    Mibot.boostCooldownLabel 5 = "Espera 0:05" := by
  refine ⟨?_, ?_, ?_⟩
  · have h := (cooldown_rendering_amended 65).2.1 (by norm_num)
    rw [h]; decide
  · have h := (cooldown_rendering_amended 5).1 (by norm_num)
    rw [h]; decide
  · have h := (cooldown_rendering_amended 5).2.2 (by norm_num)
    rw [h]; decide

/-- C4 counterexample: when both the URL query parameter and the
host-app (Telegram WebApp) user id are non-empty, `getUserId` returns
the URL value, not the host-app context value as the claim states. -/
theorem getUserId_url_beats_context :
    Mibot.getUserId (some "111") (some "222") = some "111" ∧
    (some "111" : Option String) ≠ some "222" := by
  constructor
  · decide
  · decide

/-- C4 (amended): the priority order is URL query parameter first, then
host-app context, then none: whenever the URL query parameter `user_id`
is non-empty, `getUserId` returns it regardless of the host-app context;
the host-app context is used exactly when the URL value is absent or
empty. -/
theorem getUserId_priority (url tg : Option String)
    (h : Mibot.jsStrTruthy url = true) :
    Mibot.getUserId url tg = url := by
  simp [Mibot.getUserId, h]

/-- Witness for the amended C4 at a concrete input. -/
theorem getUserId_priority_witness :
    Mibot.jsStrTruthy (some "111") = true ∧
    Mibot.getUserId (some "111") (some "222") = some "111" :=
  ⟨by decide, getUserId_priority (some "111") (some "222") (by decide)⟩

namespace Mibot

/-! ## C5, C6: VPN detector (`vpn_detector.js`)

`VPN_CHECK_CONFIG`: `enabled: true`, `blockOnError: false`,
`cacheTimeout: 60000`, `maxRetries: 2`.

`checkVPNStatus` never rejects: a network/HTTP failure is turned into
`{ vpn_detected: blockOnError, error: true }`.  Its outcome is modelled
by a `VpnResult`; the outcomes of successive network attempts are an
environment function `results : Nat → VpnResult`. -/

structure VpnResult where
  vpn_detected : Bool
  error : Bool
deriving DecidableEq, Repr

def vpnCacheTimeout : Int := 60000

def vpnMaxRetries : Nat := 2

/-- One scheduling action of the retry loop: a network attempt, or the
500 ms `setTimeout` pause taken after a failed attempt. -/
inductive VpnAction where
  | call
  | sleep500
deriving DecidableEq, Repr

/-- The retry loop of `initVPNCheck`:

```js
let retries = 0;
let result = null;
while (retries < VPN_CHECK_CONFIG.maxRetries) {
    result = await checkVPNStatus();
    if (!result.error) break;
    retries++;
    await new Promise(resolve => setTimeout(resolve, 500));
}
```

The fuel argument is `maxRetries - retries`; `calls` counts completed
attempts (indexing into `results`); `last` is the JS `result` variable;
the returned trace records the scheduling actions taken.  Returns
(final `result`, number of attempts, action trace). -/
def vpnLoopAux (results : Nat → VpnResult) :
    Nat → Nat → Option VpnResult → Option VpnResult × Nat × List VpnAction
  | 0, calls, last => (last, calls, [])
  | fuel + 1, calls, _ =>
      let r := results calls
      if r.error then
        let (res, n, tr) := vpnLoopAux results fuel (calls + 1) (some r)
        (res, n, VpnAction.call :: VpnAction.sleep500 :: tr)
      else
        (some r, calls + 1, [VpnAction.call])

def vpnLoop (results : Nat → VpnResult) : Option VpnResult × Nat × List VpnAction :=
  vpnLoopAux results vpnMaxRetries 0 none

/-- Outcome of one `initVPNCheck` run: whether the browser was redirected
to `/vpn-blocked`, whether the checking overlay was hidden, how many
network attempts were made against the VPN-check endpoint, and what (if
anything) was written to the sessionStorage cache. -/
structure VpnOutcome where
  redirected : Bool
  overlayHidden : Bool
  fetchCalls : Nat
  cacheWritten : Option (VpnResult × Int)
deriving DecidableEq, Repr

/-- The un-cached tail of `initVPNCheck`: run the retry loop, cache a
non-error result, then redirect on `vpn_detected` else hide the
overlay. -/
def vpnFetchPath (now : Int) (results : Nat → VpnResult) : VpnOutcome :=
  let (res, calls, _) := vpnLoop results
  let cache : Option (VpnResult × Int) :=
    match res with
    | some r => if r.error then none else some (r, now)
    | none => none
  match res with
  | some r =>
      if r.vpn_detected then
        { redirected := true, overlayHidden := false, fetchCalls := calls,
          cacheWritten := cache }
      else
        { redirected := false, overlayHidden := true, fetchCalls := calls,
          cacheWritten := cache }
  | none =>
      { redirected := false, overlayHidden := true, fetchCalls := calls,
        cacheWritten := cache }

/-- Embedding of `initVPNCheck`.  `cached`/`cachedTime` model the parsed
`sessionStorage` entries `vpn_check_result` and `vpn_check_time`
(`none` when the key is absent); `now` is `Date.now()`; `results` gives
the outcome of each would-be network attempt. -/
def initVPNCheck (enabled : Bool) (pathname : String)
    (cached : Option VpnResult) (cachedTime : Option Int) (now : Int)
    (results : Nat → VpnResult) : VpnOutcome :=
  if !enabled then
    { redirected := false, overlayHidden := false, fetchCalls := 0,
      cacheWritten := none }
  else if pathname = "/vpn-blocked" then
    { redirected := false, overlayHidden := false, fetchCalls := 0,
      cacheWritten := none }
  else if pathname.startsWith "/admin" then
    { redirected := false, overlayHidden := false, fetchCalls := 0,
      cacheWritten := none }
  else
    match cached, cachedTime with
    | some r, some t =>
        if now - t < vpnCacheTimeout then
          if r.vpn_detected then
            { redirected := true, overlayHidden := false, fetchCalls := 0,
              cacheWritten := none }
          else
            { redirected := false, overlayHidden := true, fetchCalls := 0,
              cacheWritten := none }
        else
          vpnFetchPath now results
    | _, _ => vpnFetchPath now results

end Mibot

/-- C5: on a page load (VPN check enabled, not on the `/vpn-blocked`
page or an admin page) where sessionStorage holds a `vpn_check_result`
with `vpn_detected:true` whose `vpn_check_time` is less than the
60-second cache timeout old, `initVPNCheck` redirects to `/vpn-blocked`
without issuing any request to the VPN-check endpoint. -/
theorem initVPNCheck_cached_vpn_redirects_without_fetch
    (pathname : String) (r : Mibot.VpnResult) (t now : Int)
    (results : Nat → Mibot.VpnResult)
    (hpath : pathname ≠ "/vpn-blocked")
    (hadmin : pathname.startsWith "/admin" = false)
    (hfresh : now - t < Mibot.vpnCacheTimeout)
    (hdet : r.vpn_detected = true) :
    (Mibot.initVPNCheck true pathname (some r) (some t) now results).redirected
        = true ∧
    (Mibot.initVPNCheck true pathname (some r) (some t) now results).fetchCalls
        = 0 := by
  unfold Mibot.initVPNCheck
  simp [hpath, hadmin, hfresh, hdet]

/-- Witness for C5 at a concrete page load. -/
theorem initVPNCheck_cached_vpn_redirects_without_fetch_witness :
    ("/" : String) ≠ "/vpn-blocked" ∧
    String.startsWith "/" "/admin" = false ∧
    ((100000 : Int) - 90000 < Mibot.vpnCacheTimeout) ∧
    (Mibot.VpnResult.mk true false).vpn_detected = true ∧
    ((Mibot.initVPNCheck true "/" (some ⟨true, false⟩) (some 90000) 100000
        (fun _ => ⟨false, false⟩)).redirected = true ∧
      (Mibot.initVPNCheck true "/" (some ⟨true, false⟩) (some 90000) 100000
        (fun _ => ⟨false, false⟩)).fetchCalls = 0) :=
  ⟨by decide, by decide, by decide, by decide,
    initVPNCheck_cached_vpn_redirects_without_fetch "/" ⟨true, false⟩ 90000
      100000 (fun _ => ⟨false, false⟩) (by decide) (by decide) (by decide)
      (by decide)⟩

/-- C6: on every uncached VPN check the endpoint is called at most
twice, the loop stops at the first attempt whose result is not an
error, consecutive attempts are separated by a 500 ms pause, and the
loop terminates after at most 2 attempts even if every attempt errors:
the retry loop's complete behaviour is determined by whether the first
(and second) attempts error, with an attempt count of 1 when the first
attempt succeeds and 2 otherwise. -/
theorem vpnLoop_bounded_retry (results : Nat → Mibot.VpnResult) :
    Mibot.vpnLoop results =
      (if (results 0).error then
        if (results 1).error then
          (some (results 1), 2,
            [Mibot.VpnAction.call, Mibot.VpnAction.sleep500,
              Mibot.VpnAction.call, Mibot.VpnAction.sleep500])
        else
          (some (results 1), 2,
            [Mibot.VpnAction.call, Mibot.VpnAction.sleep500,
              Mibot.VpnAction.call])
      else (some (results 0), 1, [Mibot.VpnAction.call])) ∧
    (Mibot.vpnLoop results).2.1 ≤ 2 := by
  by_cases h0 : (results 0).error <;> by_cases h1 : (results 1).error <;>
    simp [Mibot.vpnLoop, Mibot.vpnLoopAux, Mibot.vpnMaxRetries, h0, h1]

namespace Mibot

/-! ## C8: device fingerprint cache (`device_fingerprint.js`)

`DeviceFingerprint.getStoredFingerprint`:

```js
const stored = localStorage.getItem('_se_device_fp');
if (stored) {
    try {
        const data = JSON.parse(stored);
        if (data.timestamp && (Date.now() - data.timestamp) < 86400000) {
            return data.hash;
        }
    } catch (e) {}
}
const fingerprint = this.generate();
localStorage.setItem('_se_device_fp', JSON.stringify({
    hash: fingerprint.hash, timestamp: Date.now()
}));
return fingerprint.hash;
```

The parsed localStorage entry is an `FpStore` (`none` when the key is
absent or unparseable); `now` is `Date.now()`; `fresh` is the hash
`this.generate()` would produce if invoked now.  The result records the
returned hash, the updated storage, and whether `generate` ran. -/

def fpCacheMs : Int := 86400000

structure FpStore where
  hash : String
  timestamp : Int
deriving DecidableEq, Repr

structure FpResult where
  returned : String
  stored : Option FpStore
  recomputed : Bool
deriving DecidableEq, Repr

def getStoredFingerprint (stored : Option FpStore) (now : Int)
    (fresh : String) : FpResult :=
  match stored with
  | some d =>
      if d.timestamp ≠ 0 ∧ now - d.timestamp < fpCacheMs then
        { returned := d.hash, stored := some d, recomputed := false }
      else
        { returned := fresh, stored := some ⟨fresh, now⟩, recomputed := true }
  | none =>
      { returned := fresh, stored := some ⟨fresh, now⟩, recomputed := true }

/-! ## C9: SDK loaders

### OnClickA (`loadOnClickaSDK` in `onclicka_pts.js`)

```js
if (onclickaReady) { resolve(true); return; }
if (document.querySelector(`script[src=...]`)) {
    onclickaReady = true; resolve(true); return;
}
const script = document.createElement('script'); ...
script.onload = () => { onclickaReady = true; resolve(true); };
document.head.appendChild(script);
```

State: the module flag `onclickaReady`, whether the script tag is in the
document, and how many script elements have been injected in total.
Events: a call to `loadOnClickaSDK`, and the script's `onload` firing. -/

structure OcState where
  ready : Bool
  tagPresent : Bool
  injected : Nat
deriving DecidableEq, Repr

inductive OcEvent where
  | callLoad
  | scriptLoad
deriving DecidableEq, Repr

def ocStep (s : OcState) : OcEvent → OcState
  | OcEvent.callLoad =>
      if s.ready then s
      else if s.tagPresent then { s with ready := true }
      else { s with tagPresent := true, injected := s.injected + 1 }
  | OcEvent.scriptLoad =>
      if s.tagPresent then { s with ready := true } else s

def ocInit : OcState := { ready := false, tagPresent := false, injected := 0 }

def ocRun (es : List OcEvent) : OcState := es.foldl ocStep ocInit

/-! ### AdsGram (`initAdsgram` in the adsgram_boost module)

```js
if (window.Adsgram && isAdsgramReady) { resolve(adsgramController); return; }
if (!window.Adsgram) {
    const script = document.createElement('script'); ...
    script.onload = () => { ... isAdsgramReady = true; resolve(...); };
    document.head.appendChild(script);
} else {
    adsgramController = window.Adsgram.init(...); isAdsgramReady = true; ...
}
```

Unlike the OnClickA loader, `initAdsgram` never looks for an existing
script tag: it only tests the `window.Adsgram` global, which is set by
the injected script when it finishes loading.  `tags` counts the script
elements appended to the document. -/

structure AgState where
  globalPresent : Bool
  ready : Bool
  tags : Nat
deriving DecidableEq, Repr

inductive AgEvent where
  | callInit
  | scriptLoad
deriving DecidableEq, Repr

def agStep (s : AgState) : AgEvent → AgState
  | AgEvent.callInit =>
      if s.globalPresent && s.ready then s
      else if !s.globalPresent then { s with tags := s.tags + 1 }
      else { s with ready := true }
  | AgEvent.scriptLoad =>
      if s.tags > 0 then { s with globalPresent := true, ready := true } else s

def agInit : AgState := { globalPresent := false, ready := false, tags := 0 }

def agRun (es : List AgEvent) : AgState := es.foldl agStep agInit

/-- Invariant for the OnClickA loader: once no tag is present nothing has
been injected, and at most one script element is ever injected. -/
def OcInv (s : OcState) : Prop :=
  (s.tagPresent = false → s.injected = 0) ∧ s.injected ≤ 1

theorem ocStep_inv {s : OcState} (h : OcInv s) (e : OcEvent) :
    OcInv (ocStep s e) := by
  obtain ⟨h1, h2⟩ := h
  cases e with
  | callLoad =>
      simp only [ocStep]
      by_cases hr : s.ready = true
      · rw [if_pos hr]; exact ⟨h1, h2⟩
      · rw [if_neg hr]
        by_cases ht : s.tagPresent = true
        · rw [if_pos ht]
          exact ⟨fun hc => h1 (by simpa using hc), by simpa using h2⟩
        · rw [if_neg ht]
          have hinj : s.injected = 0 := h1 (by simpa using ht)
          exact ⟨fun hc => by simp at hc, by simp [hinj]⟩
  | scriptLoad =>
      simp only [ocStep]
      by_cases ht : s.tagPresent = true
      · rw [if_pos ht]
        exact ⟨fun hc => h1 (by simpa using hc), by simpa using h2⟩
      · rw [if_neg ht]; exact ⟨h1, h2⟩

theorem ocRun_inv (es : List OcEvent) : OcInv (ocRun es) := by
  suffices h : ∀ s, OcInv s → OcInv (es.foldl ocStep s) from
    h ocInit (by simp [OcInv, ocInit])
  induction es with
  | nil => intro s hs; simpa using hs
  | cons e t ih => intro s hs; exact ih _ (ocStep_inv hs e)

end Mibot

/-- C8: a call to the stored-fingerprint getter while the cached entry
(written by a previous call, hence with a positive timestamp) is less
than 24 hours old returns the cached hash without recomputing and leaves
the cache unchanged, so two such calls return the identical hash; a call
made 24 hours or more after the cached timestamp recomputes a fresh
fingerprint and re-caches it with the current timestamp. -/
theorem getStoredFingerprint_cache (h : String) (ts t1 t2 : Int)
    (fresh1 fresh2 : String)
    (hts : 0 < ts)
    (h1 : t1 - ts < Mibot.fpCacheMs) (h2 : t2 - ts < Mibot.fpCacheMs) :
    (let r1 := Mibot.getStoredFingerprint (some ⟨h, ts⟩) t1 fresh1
     let r2 := Mibot.getStoredFingerprint r1.stored t2 fresh2
     r1.returned = h ∧ r2.returned = h ∧
       r1.recomputed = false ∧ r2.recomputed = false) ∧
    (∀ t3 fresh3, Mibot.fpCacheMs ≤ t3 - ts →
      Mibot.getStoredFingerprint (some ⟨h, ts⟩) t3 fresh3 =
        { returned := fresh3, stored := some ⟨fresh3, t3⟩,
          recomputed := true }) := by
  have hts' : ts ≠ 0 := by omega
  constructor
  · simp [Mibot.getStoredFingerprint, hts', h1, h2]
  · intro t3 fresh3 h3
    have : ¬ (ts ≠ 0 ∧ t3 - ts < Mibot.fpCacheMs) := by
      intro hc; omega
    simp [Mibot.getStoredFingerprint, this]

/-- Witness for C8 at concrete times: cache written at time 1000, reads
at 2000 and 3000 hit the cache; a read at `ts + 24h` recomputes. -/
theorem getStoredFingerprint_cache_witness :
    ((0 : Int) < 1000 ∧ (2000 : Int) - 1000 < Mibot.fpCacheMs ∧
      (3000 : Int) - 1000 < Mibot.fpCacheMs) ∧
    ((let r1 := Mibot.getStoredFingerprint (some ⟨"df_a", 1000⟩) 2000 "df_b"
      let r2 := Mibot.getStoredFingerprint r1.stored 3000 "df_c"
      r1.returned = "df_a" ∧ r2.returned = "df_a" ∧
        r1.recomputed = false ∧ r2.recomputed = false) ∧
     (∀ t3 fresh3, Mibot.fpCacheMs ≤ t3 - 1000 →
       Mibot.getStoredFingerprint (some ⟨"df_a", 1000⟩) t3 fresh3 =
         { returned := fresh3, stored := some ⟨fresh3, t3⟩,
           recomputed := true })) :=
  ⟨⟨by decide, by decide, by decide⟩,
    getStoredFingerprint_cache "df_a" 1000 2000 3000 "df_b" "df_c"
      (by decide) (by decide) (by decide)⟩

/-- C9 counterexample: for the AdsGram loader `initAdsgram`, after a
first call the SDK script tag is already in the document (`tags = 1`),
yet a second call made before the script has loaded (so `window.Adsgram`
is still unset) injects a second script element (`tags = 2`) — the
script tag is not injected at most once, and a call made while the tag
already exists does not resolve without injecting. -/
theorem initAdsgram_double_injection :
    (Mibot.agRun [Mibot.AgEvent.callInit]).tags = 1 ∧
    (Mibot.agRun [Mibot.AgEvent.callInit, Mibot.AgEvent.callInit]).tags
      = 2 := by
  constructor
  · rfl
  · rfl

/-- C9 (amended): the OnClickA loader `loadOnClickaSDK`, which checks
both the module ready flag and the presence of the script tag before
injecting, injects the script element at most once over every sequence
of load calls and script-load events; the AdsGram loader `initAdsgram`
is guarded only by the `window.Adsgram` global: a call injects a new
script element exactly when the global is absent, and resolves without
injecting whenever the global is present. -/
theorem sdk_loader_injection (es : List Mibot.OcEvent) (s : Mibot.AgState) :
    (Mibot.ocRun es).injected ≤ 1 ∧
    (Mibot.agStep s Mibot.AgEvent.callInit).tags =
      (if s.globalPresent then s.tags else s.tags + 1) := by
  refine ⟨(Mibot.ocRun_inv es).2, ?_⟩
  by_cases hg : s.globalPresent = true
  · by_cases hr : s.ready = true
    · simp [Mibot.agStep, hg, hr]
    · simp [Mibot.agStep, hg, hr]
  · simp [Mibot.agStep, hg]

namespace Mibot

/-! ## C1, C3: the AdsGram boost consent flow (adsgram_boost module)

The DOM pieces touched by `acceptAndShowAd`, `closeBoostModal` and
`showBoostToast` are a record: the disabled state of the two consent
buttons, the visibility of the loading layer and of the modal, and the
list of toasts shown so far.  The asynchronous outcomes the flow awaits
(`initAdsgram`, `controller.show()`, the `/api/boost/activate` fetch)
are an environment record. -/

inductive ToastKind where
  | success
  | error
  | warning
  | info
deriving DecidableEq, Repr

structure Toast where
  msg : String
  kind : ToastKind
deriving DecidableEq, Repr

structure BoostDom where
  acceptDisabled : Bool
  cancelDisabled : Bool
  loadingVisible : Bool
  modalVisible : Bool
  toasts : List Toast
deriving DecidableEq, Repr

/-- `showBoostToast(message, type)`: append a toast. -/
def showBoostToast (msg : String) (kind : ToastKind) (d : BoostDom) :
    BoostDom :=
  { d with toasts := d.toasts ++ [{ msg := msg, kind := kind }] }

/-- `closeBoostModal()`: hide the modal, hide the loading layer, and
re-enable both buttons. -/
def closeBoostModal (d : BoostDom) : BoostDom :=
  { d with modalVisible := false, loadingVisible := false,
           acceptDisabled := false, cancelDisabled := false }

/-- The `/api/boost/activate` response body:
`{success, boost: {pts_earned}, error}`. -/
structure ActivateData where
  success : Bool
  error : Option String
  ptsEarned : Option Nat
deriving DecidableEq, Repr

/-- Asynchronous outcomes awaited by one `acceptAndShowAd` run:
whether `initAdsgram()` resolves (and the rejection message otherwise),
whether `controller.show()` resolves (and the error message otherwise),
the resolved `result.done` flag, and whether the activation fetch
resolves (and with what body). -/
structure AdEnv where
  initOk : Bool
  initErrMsg : String
  showOk : Bool
  showErrMsg : String
  adDone : Bool
  activateOk : Bool
  activateData : ActivateData
deriving DecidableEq, Repr

/-- The catch-branch of `acceptAndShowAd`: classify the error by the
`user` substring heuristic and toast accordingly. -/
def boostCatch (errMsg : String) (d : BoostDom) : BoostDom :=
  if hasSub errMsg "user" then
    showBoostToast "Anuncio cancelado" ToastKind.info d
  else
    showBoostToast "Error al cargar anuncio. Intenta de nuevo."
      ToastKind.error d

/-- The `result.done` branch of `acceptAndShowAd`: try the activation
fetch; on resolution close the modal and toast by the response shape
(success / already-active error containing `activo` / other); on
rejection close the modal and toast success anyway. -/
def boostActivateBranch (env : AdEnv) (d : BoostDom) : BoostDom :=
  if env.activateOk then
    let d := closeBoostModal d
    let a := env.activateData
    if a.success then
      let ptsMsg :=
        match a.ptsEarned with
        | some p => if p ≠ 0 then " +" ++ Nat.repr p ++ " PTS" else " +15 PTS"
        | none => " +15 PTS"
      showBoostToast ("🚀 ¡Boost x2 activado por 30 minutos!" ++ ptsMsg)
        ToastKind.success d
    else if (match a.error with
             | some e => !(e = "") && hasSub e "activo"
             | none => false) then
      showBoostToast "🚀 ¡Boost x2 activado por 30 minutos! +15 PTS"
        ToastKind.success d
    else
      let fallback :=
        match a.error with
        | some e => if e = "" then "Boost activado" else e
        | none => "Boost activado"
      showBoostToast fallback ToastKind.info d
  else
    showBoostToast "🚀 ¡Boost x2 activado por 30 minutos! +15 PTS"
      ToastKind.success (closeBoostModal d)

/-- Embedding of `acceptAndShowAd`: disable both buttons and show the
loading layer, run the try-block (SDK init, ad presentation, activation
handling, or the catch-branch on rejection), then the finally-block:
hide the loading layer, re-enable both buttons, and `closeBoostModal`. -/
def acceptAndShowAd (env : AdEnv) (d0 : BoostDom) : BoostDom :=
  let d := { d0 with acceptDisabled := true, cancelDisabled := true,
                     loadingVisible := true }
  let d :=
    if !env.initOk then boostCatch env.initErrMsg d
    else if !env.showOk then boostCatch env.showErrMsg d
    else if env.adDone then boostActivateBranch env d
    else d
  closeBoostModal
    { d with loadingVisible := false, acceptDisabled := false,
             cancelDisabled := false }

end Mibot

/-- C3: every termination of the consent-flow function
`acceptAndShowAd` — success, SDK/load error, user cancellation, or
activation failure — ends with both consent-modal buttons re-enabled
(`disabled = false`); no exit path (no environment of asynchronous
outcomes and no starting DOM state) leaves either button disabled. -/
theorem acceptAndShowAd_reenables_buttons (env : Mibot.AdEnv)
    (d : Mibot.BoostDom) :
    (Mibot.acceptAndShowAd env d).acceptDisabled = false ∧
    (Mibot.acceptAndShowAd env d).cancelDisabled = false := by
  constructor
  · rfl
  · rfl

/-- C1: when the ad completed and the activation response is not a
success but its error text contains `activo` (the "already active"
marker the code tests for), `acceptAndShowAd` produces exactly the DOM
state it produces for a genuine plain success response — in particular
the one toast appended is the success-class boost toast, not an
error. -/
theorem acceptAndShowAd_already_active_is_success (env : Mibot.AdEnv)
    (d : Mibot.BoostDom) (e : String)
    (hinit : env.initOk = true) (hshow : env.showOk = true)
    (hdone : env.adDone = true) (hact : env.activateOk = true)
    (hfail : env.activateData.success = false)
    (herr : env.activateData.error = some e)
    (hne : e ≠ "")
    (hactivo : Mibot.hasSub e "activo" = true) :
    Mibot.acceptAndShowAd env d =
      Mibot.acceptAndShowAd
        { env with activateData :=
            { success := true, error := none, ptsEarned := none } } d ∧
    (Mibot.acceptAndShowAd env d).toasts =
      d.toasts ++
        [{ msg := "🚀 ¡Boost x2 activado por 30 minutos! +15 PTS",
           kind := Mibot.ToastKind.success }] := by
  have hne' : (e = "") = False := by simp [hne]
  constructor
  · simp [Mibot.acceptAndShowAd, Mibot.boostActivateBranch, hinit, hshow,
      hdone, hact, hfail, herr, hne', hactivo, Mibot.closeBoostModal,
      Mibot.showBoostToast]
  · simp [Mibot.acceptAndShowAd, Mibot.boostActivateBranch, hinit, hshow,
      hdone, hact, hfail, herr, hne', hactivo, Mibot.closeBoostModal,
      Mibot.showBoostToast]

/-- Witness for C1 at a concrete environment whose activation response
is the error `Ya hay un boost activo`. -/
theorem acceptAndShowAd_already_active_is_success_witness :
    (let env : Mibot.AdEnv :=
      { initOk := true, initErrMsg := "", showOk := true, showErrMsg := "",
        adDone := true, activateOk := true,
        activateData :=
          { success := false, error := some "Ya hay un boost activo",
            ptsEarned := none } }
     let d : Mibot.BoostDom :=
      { acceptDisabled := false, cancelDisabled := false,
        loadingVisible := false, modalVisible := true, toasts := [] }
     Mibot.acceptAndShowAd env d =
        Mibot.acceptAndShowAd
          { env with activateData :=
              { success := true, error := none, ptsEarned := none } } d ∧
      (Mibot.acceptAndShowAd env d).toasts =
        d.toasts ++
          [{ msg := "🚀 ¡Boost x2 activado por 30 minutos! +15 PTS",
             kind := Mibot.ToastKind.success }]) :=
  acceptAndShowAd_already_active_is_success _ _ "Ya hay un boost activo"
    rfl rfl rfl rfl rfl rfl (by decide) (by decide)

namespace Mibot

/-! ## C2: one ad-flow in flight

### ShrinkEarn controller (`startShrinkEarnMission` in `shrinkearn.js`)

```js
if (!ShrinkEarnState.userId) { showToast(...); return; }
if (ShrinkEarnState.activeMission) { return; }        // double-click guard
ShrinkEarnState.activeMission = missionId;
try { ... await fetch('/shrinkearn/start', ...) ... }
finally { ShrinkEarnState.activeMission = null; ... }
```

The synchronous prefix up to the first `await` runs atomically on the
browser main thread; so does the `finally`.  A trace therefore
interleaves `trigger` events (the prefix of one invocation) and `finish`
events (the awaited tail plus `finally` of the flow in flight).
`inFlight` lists the missions whose flow has started and not yet
finished. -/

structure SeState where
  activeMission : Option String
  inFlight : List String
deriving DecidableEq, Repr

inductive SeEvent where
  | trigger (userId : Option String) (missionId : String)
  | finish
deriving DecidableEq, Repr

def seStep (s : SeState) : SeEvent → SeState
  | SeEvent.trigger userId missionId =>
      match userId with
      | none => s
      | some _ =>
          match s.activeMission with
          | some _ => s
          | none =>
              { activeMission := some missionId,
                inFlight := missionId :: s.inFlight }
  | SeEvent.finish =>
      match s.inFlight with
      | [] => s
      | _ :: t => { activeMission := none, inFlight := t }

def seInit : SeState := { activeMission := none, inFlight := [] }

def seRun (es : List SeEvent) : SeState := es.foldl seStep seInit

/-- Invariant tying the busy flag to the flows in flight: the flag holds
mission `m` exactly when the single in-flight flow is `m`. -/
def SeInv (s : SeState) : Prop :=
  (s.activeMission = none ∧ s.inFlight = []) ∨
  (∃ m, s.activeMission = some m ∧ s.inFlight = [m])

theorem seStep_inv {s : SeState} (h : SeInv s) (e : SeEvent) :
    SeInv (seStep s e) := by
  cases e with
  | trigger userId missionId =>
      cases userId with
      | none => simpa [seStep] using h
      | some u =>
          rcases h with ⟨ha, hf⟩ | ⟨m, ha, hf⟩
          · right
            exact ⟨missionId, by simp [seStep, ha, hf]⟩
          · right
            exact ⟨m, by simp [seStep, ha, hf]⟩
  | finish =>
      rcases h with ⟨ha, hf⟩ | ⟨m, ha, hf⟩
      · left; simp [seStep, hf, ha]
      · left; simp [seStep, hf]

theorem seRun_inv (es : List SeEvent) : SeInv (seRun es) := by
  suffices h : ∀ s, SeInv s → SeInv (es.foldl seStep s) from
    h seInit (Or.inl ⟨rfl, rfl⟩)
  induction es with
  | nil => intro s hs; simpa using hs
  | cons e t ih => intro s hs; exact ih _ (seStep_inv hs e)

/-! ### AdsGram boost controller (`openBoostModal` in the adsgram_boost
module)

```js
async function openBoostModal() {
    createBoostModalStyles();
    createBoostConsentModal();
    const userId = getUserId();
    if (!userId) { showBoostToast(...); return; }
    try {
        const response = await fetch(`/api/boost/can-activate?...`);
        ...
    }
}
```

The synchronous prefix consults no busy flag: whenever a user id is
available it dispatches the eligibility fetch, starting a flow.
`inFlight` counts dispatched `can-activate` fetches not yet resolved. -/

structure BoostTriggerState where
  inFlight : Nat
  modalVisible : Bool
deriving DecidableEq, Repr

/-- Synchronous prefix of one `openBoostModal` invocation. -/
def openBoostModalStart (userId : Option String) (s : BoostTriggerState) :
    BoostTriggerState :=
  match userId with
  | none => s
  | some _ => { s with inFlight := s.inFlight + 1 }

/-- Resolution of one dispatched `can-activate` fetch. -/
def boostEligibilityResolve (canActivate : Bool) (s : BoostTriggerState) :
    BoostTriggerState :=
  { inFlight := s.inFlight - 1,
    modalVisible := s.modalVisible || canActivate }

end Mibot

/-- C2 counterexample: the AdsGram boost controller has no busy flag in
`openBoostModal` — two rapid trigger invocations, made before the first
eligibility fetch resolves, leave two ad-flows in flight at once; the
second trigger is not a no-op. -/
theorem openBoostModal_no_busy_flag :
    (Mibot.openBoostModalStart (some "7")
      (Mibot.openBoostModalStart (some "7")
        { inFlight := 0, modalVisible := false })).inFlight = 2 ∧
    Mibot.openBoostModalStart (some "7")
        (Mibot.openBoostModalStart (some "7")
          { inFlight := 0, modalVisible := false }) ≠
      Mibot.openBoostModalStart (some "7")
        { inFlight := 0, modalVisible := false } ∧
    ¬ (2 : Nat) ≤ 1 := by
  refine ⟨rfl, ?_, by decide⟩
  decide

/-- C2 (amended): the ShrinkEarn controller does maintain the busy-flag
discipline over every sequence of trigger and flow-termination events —
at most one mission flow is in flight, a trigger made while
`activeMission` is set leaves the state unchanged (dropped, not
queued), and a terminating flow clears the flag; the AdsGram boost
controller's `openBoostModal` has no such flag (see the
counterexample). -/
theorem startShrinkEarnMission_busy_flag (es : List Mibot.SeEvent) :
    (Mibot.seRun es).inFlight.length ≤ 1 ∧
    (∀ (s : Mibot.SeState) (u : Option String) (m x : String),
      s.activeMission = some x →
      Mibot.seStep s (Mibot.SeEvent.trigger u m) = s) ∧
    (∀ s : Mibot.SeState, s.inFlight ≠ [] →
      (Mibot.seStep s Mibot.SeEvent.finish).activeMission = none) := by
  refine ⟨?_, ?_, ?_⟩
  · rcases Mibot.seRun_inv es with ⟨_, hf⟩ | ⟨m, _, hf⟩ <;> simp [hf]
  · intro s u m x hx
    cases u with
    | none => simp [Mibot.seStep]
    | some v => simp [Mibot.seStep, hx]
  · intro s hs
    cases hfl : s.inFlight with
    | nil => exact absurd hfl hs
    | cons a t => simp [Mibot.seStep, hfl]

/-- Witness for the amended C2: a concrete trace (trigger, double-click
trigger while busy, finish) keeps at most one flow in flight; the
busy-state no-op and the flag-clearing conjuncts applied at concrete
states. -/
theorem startShrinkEarnMission_busy_flag_witness :
    (Mibot.seRun
        [Mibot.SeEvent.trigger (some "9") "m1",
          Mibot.SeEvent.trigger (some "9") "m2",
          Mibot.SeEvent.finish]).inFlight.length ≤ 1 ∧
    Mibot.seStep { activeMission := some "m1", inFlight := ["m1"] }
        (Mibot.SeEvent.trigger (some "9") "m2") =
      { activeMission := some "m1", inFlight := ["m1"] } ∧
    (Mibot.seStep { activeMission := some "m1", inFlight := ["m1"] }
        Mibot.SeEvent.finish).activeMission = none :=
  ⟨(startShrinkEarnMission_busy_flag
      [Mibot.SeEvent.trigger (some "9") "m1",
        Mibot.SeEvent.trigger (some "9") "m2",
        Mibot.SeEvent.finish]).1,
    (startShrinkEarnMission_busy_flag []).2.1
      { activeMission := some "m1", inFlight := ["m1"] } (some "9") "m2" "m1"
      rfl,
    (startShrinkEarnMission_busy_flag []).2.2
      { activeMission := some "m1", inFlight := ["m1"] } (by decide)⟩

namespace Mibot

/-! ## C10: DbLoader reference counting (db_loader module)

```js
show(message) {
    this.state.activeRequests++;
    ...
    this.state.loaderElement.classList.remove('db-loader-hidden', ...);
    this.startPolling();
},
hide(status) {
    this.state.activeRequests = Math.max(0, this.state.activeRequests - 1);
    if (this.state.activeRequests > 0) return;
    this.stopPolling();
    ... setTimeout(() => {
        this.state.loaderElement.classList.add('db-loader-hidden');
    }, this.config.fadeOutDelay);
}
```

`activeRequests` is modelled as an `Int` so that the `Math.max(0, ...)`
clamp is meaningful.  `overlayHidden` is whether the overlay element
carries the `db-loader-hidden` class; `pendingHides` counts fade-out
`setTimeout` callbacks scheduled by `hide` and not yet fired. -/

structure DbState where
  activeRequests : Int
  overlayHidden : Bool
  pendingHides : Nat
deriving DecidableEq, Repr

inductive DbEvent where
  | show
  | hide
  | fadeTimeout
deriving DecidableEq, Repr

def dbStep (s : DbState) : DbEvent → DbState
  | DbEvent.show =>
      { s with activeRequests := s.activeRequests + 1, overlayHidden := false }
  | DbEvent.hide =>
      let n := max 0 (s.activeRequests - 1)
      if n > 0 then { s with activeRequests := n }
      else { s with activeRequests := n, pendingHides := s.pendingHides + 1 }
  | DbEvent.fadeTimeout =>
      if s.pendingHides > 0 then
        { s with overlayHidden := true, pendingHides := s.pendingHides - 1 }
      else s

/-- Initial module state: no outstanding requests, overlay created with
the `db-loader-hidden` class, no pending fade-outs. -/
def dbInit : DbState :=
  { activeRequests := 0, overlayHidden := true, pendingHides := 0 }

def dbRun (es : List DbEvent) : DbState := es.foldl dbStep dbInit

theorem dbStep_nonneg {s : DbState} (h : 0 ≤ s.activeRequests)
    (e : DbEvent) : 0 ≤ (dbStep s e).activeRequests := by
  cases e
  · simp only [dbStep]
    omega
  · simp only [dbStep]
    by_cases hn : max 0 (s.activeRequests - 1) > 0
    · rw [if_pos hn]; exact le_of_lt hn
    · rw [if_neg hn]; simp
  · simp only [dbStep]
    by_cases hp : s.pendingHides > 0
    · rw [if_pos hp]; simpa using h
    · rw [if_neg hp]; exact h

end Mibot

/-- C10: for every interleaving of `DbLoader.show`, `DbLoader.hide`, and
fade-out timer events, the `activeRequests` counter never becomes
negative (the decrement is clamped at 0); a `hide` call that leaves
`activeRequests` still positive neither changes the overlay's hidden
class nor schedules a dismissal; a dismissal is scheduled only by a
`hide` that brings the counter to 0, and the overlay's hidden class is
added only by a fade-out timer fired with a dismissal pending. -/
theorem dbLoader_refcount (es : List Mibot.DbEvent) :
    0 ≤ (Mibot.dbRun es).activeRequests ∧
    (∀ s : Mibot.DbState,
      0 < (Mibot.dbStep s Mibot.DbEvent.hide).activeRequests →
      (Mibot.dbStep s Mibot.DbEvent.hide).overlayHidden = s.overlayHidden ∧
      (Mibot.dbStep s Mibot.DbEvent.hide).pendingHides = s.pendingHides) ∧
    (∀ (s : Mibot.DbState) (e : Mibot.DbEvent),
      s.pendingHides < (Mibot.dbStep s e).pendingHides →
      e = Mibot.DbEvent.hide ∧ (Mibot.dbStep s e).activeRequests = 0) ∧
    (∀ (s : Mibot.DbState) (e : Mibot.DbEvent),
      s.overlayHidden = false → (Mibot.dbStep s e).overlayHidden = true →
      e = Mibot.DbEvent.fadeTimeout ∧ 0 < s.pendingHides) := by
  refine ⟨?_, ?_, ?_, ?_⟩
  · suffices h : ∀ s : Mibot.DbState, 0 ≤ s.activeRequests →
        0 ≤ (es.foldl Mibot.dbStep s).activeRequests from
      h Mibot.dbInit (by simp [Mibot.dbInit])
    induction es with
    | nil => intro s hs; simpa using hs
    | cons e t ih => intro s hs; exact ih _ (Mibot.dbStep_nonneg hs e)
  · intro s hpos
    simp only [Mibot.dbStep] at hpos ⊢
    by_cases hn : max 0 (s.activeRequests - 1) > 0
    · rw [if_pos hn]; exact ⟨rfl, rfl⟩
    · rw [if_neg hn] at hpos
      simp at hpos
      omega
  · intro s e hgrow
    cases e
    · simp [Mibot.dbStep] at hgrow
    · refine ⟨rfl, ?_⟩
      simp only [Mibot.dbStep] at hgrow ⊢
      by_cases hn : max 0 (s.activeRequests - 1) > 0
      · rw [if_pos hn] at hgrow; simp at hgrow
      · rw [if_neg hn] at hgrow ⊢
        simp only
        omega
    · exfalso
      simp only [Mibot.dbStep] at hgrow
      by_cases hp : s.pendingHides > 0
      · rw [if_pos hp] at hgrow; simp at hgrow; omega
      · rw [if_neg hp] at hgrow; simp at hgrow
  · intro s e hvis hhid
    cases e
    · simp [Mibot.dbStep] at hhid
    · exfalso
      simp only [Mibot.dbStep] at hhid
      by_cases hn : max 0 (s.activeRequests - 1) > 0
      · rw [if_pos hn] at hhid; simp [hvis] at hhid
      · rw [if_neg hn] at hhid; simp [hvis] at hhid
    · refine ⟨rfl, ?_⟩
      simp only [Mibot.dbStep] at hhid
      by_cases hp : s.pendingHides > 0
      · exact hp
      · rw [if_neg hp] at hhid; simp [hvis] at hhid

/-- Witness for C10 at concrete states: the trace show-hide-show-hide
keeps the counter non-negative; a hide at counter 2 leaves the overlay
untouched; a pending dismissal can only come from a hide reaching 0; the
hidden class only appears through a fade-out timer with a dismissal
pending. -/
theorem dbLoader_refcount_witness :
    0 ≤ (Mibot.dbRun
        [Mibot.DbEvent.show, Mibot.DbEvent.hide, Mibot.DbEvent.show,
          Mibot.DbEvent.hide]).activeRequests ∧
    ((0 : Int) <
        (Mibot.dbStep
          { activeRequests := 2, overlayHidden := false, pendingHides := 0 }
          Mibot.DbEvent.hide).activeRequests ∧
      (Mibot.dbStep
          { activeRequests := 2, overlayHidden := false, pendingHides := 0 }
          Mibot.DbEvent.hide).overlayHidden = false ∧
      (Mibot.dbStep
          { activeRequests := 2, overlayHidden := false, pendingHides := 0 }
          Mibot.DbEvent.hide).pendingHides = 0) ∧
    (Mibot.dbStep
        { activeRequests := 1, overlayHidden := false, pendingHides := 0 }
        Mibot.DbEvent.hide).activeRequests = 0 ∧
    (0 : Nat) <
      ({ activeRequests := 0, overlayHidden := false, pendingHides := 1 }
        : Mibot.DbState).pendingHides := by
  have h2 := (dbLoader_refcount []).2.1
    { activeRequests := 2, overlayHidden := false, pendingHides := 0 }
    (by decide)
  have h3 := (dbLoader_refcount []).2.2.1
    { activeRequests := 1, overlayHidden := false, pendingHides := 0 }
    Mibot.DbEvent.hide (by decide)
  have h4 := (dbLoader_refcount []).2.2.2
    { activeRequests := 0, overlayHidden := false, pendingHides := 1 }
    Mibot.DbEvent.fadeTimeout rfl (by decide)
  exact ⟨(dbLoader_refcount
      [Mibot.DbEvent.show, Mibot.DbEvent.hide, Mibot.DbEvent.show,
        Mibot.DbEvent.hide]).1,
    ⟨by decide, h2.1, h2.2⟩, h3.2, h4.2⟩
